import Mathlib

/-!
# Verification of the MyNewsApp client against its specification

Shallow embedding of the two source files of the repository:

* `src/app/screens/browse.tsx` — the Browse screen: category toggling,
  preference persistence (`saveCategoriesToDatabase`), preference loading
  (`loadSavedCategories`), the news-fetch effect and the news render branch.
* `src/unnamed/part_000` — the root `App` component (startup routing) and the
  Trending screen (`Trending.fetchNewsData`).

Collaborator calls (the Appwrite SDK and the news API) are modelled as
explicit environment values: a promise that may reject is an
`Except Unit α` (`.error` = rejection), a value that may be `null`/`undefined`
is an `Option`.  JavaScript truthiness of a string-valued field (`user.$id`,
`response.$id`) is `truthyId`: absent or empty strings are falsy.

State updates (`setSelectedCategories`, `setDocumentId`, `setNewsData`, …) are
explicit state passing; `console.log` output is collected in a `logs` list and
`showSnackbar` messages in a `snackbars` list, so that the side effects each
flow performs are part of the function's result and can be reasoned about.
-/

/-- A news article as typed in both screens (`NewsArticle`).  Only the fields
the embedded logic inspects are kept; articles are otherwise opaque payloads,
so a single `url` field stands for the whole record. -/
structure NewsArticle where
  url : String
deriving Repr, DecidableEq

/-- The resolution value of `appwrite.getCurrentUser()`: the screens only test
its truthiness and read `user.$id`, so the embedding keeps the `$id` field
(`uid`), `none` when the field is absent. -/
structure AppwriteUser where
  uid : Option String
deriving Repr, DecidableEq

/-- A preference document as returned by `createpreferences` /
`getpreferences`: its `$id` (`docId`, `none` when absent) and the
`interested_categories` attribute. -/
structure PrefDoc where
  docId : Option String
  interested_categories : List String
deriving Repr, DecidableEq

/-- JavaScript truthiness of an optional string field such as `user.$id`:
`undefined`/`null` and the empty string are falsy. -/
def truthyId : Option String → Bool
  | none => false
  | some s => s ≠ ""

/-- The Browse screen's persistent view state that the preference flows read
and write: `selectedCategories` and `documentId` (initially `[]` and `null`). -/
structure BrowseState where
  selectedCategories : List String
  documentId : Option String
deriving Repr, DecidableEq

/-- The initial Browse view state: `useState<string[]>([])` and
`useState<string | null>(null)`. -/
def initialBrowseState : BrowseState := ⟨[], none⟩

/-- A call issued to the storage collaborator by `saveCategoriesToDatabase`:
either `appwrite.createpreferences(userid, categories)` or
`appwrite.savepreferences(documentid, userid, categories)`. -/
inductive StorageCall where
  | create (userid : String) (categories : List String)
  | save (documentid : String) (userid : String) (categories : List String)
deriving Repr, DecidableEq

/-- Whether a storage call is a `createpreferences` call. -/
def StorageCall.isCreate : StorageCall → Bool
  | .create _ _ => true
  | .save _ _ _ => false

/-- The collaborator responses one invocation of `saveCategoriesToDatabase`
can consume: the resolution of `getCurrentUser`, of `savepreferences` and of
`createpreferences` (`.error` = promise rejection). -/
structure SaveEnv where
  currentUser : Except Unit (Option AppwriteUser)
  saveResult : Except Unit Unit
  createResult : Except Unit (Option PrefDoc)
deriving Repr

/-- Everything one invocation of `saveCategoriesToDatabase` produces: the
resulting `documentId` state, the storage calls issued, the snackbar messages
shown by the screen and the `console.log` lines. -/
structure SaveOutcome where
  documentId : Option String
  calls : List StorageCall
  snackbars : List String
  logs : List String
deriving Repr, DecidableEq

/-- `saveCategoriesToDatabase` of `src/app/screens/browse.tsx` (lines 68–104),
as a function of the current `documentId` state, the collaborator responses
and the `categories` argument.

The translated control flow: `await getCurrentUser()` (a rejection jumps to
the `catch`, which only logs); `if (user && user.$id)`; then either
`savepreferences` (when `documentId` is set) or `createpreferences` (caching
`response.$id` only when the response and its `$id` are truthy, logging
otherwise); a rejection of either jumps to the `catch`; on the non-throwing
paths the screen finally shows "Preferences updated successfully". -/
def saveCategoriesToDatabase (documentId : Option String) (env : SaveEnv)
    (categories : List String) : SaveOutcome :=
  match env.currentUser with
  | .error _ =>
      { documentId := documentId, calls := [], snackbars := [],
        logs := ["Error saving categories:"] }
  | .ok none =>
      { documentId := documentId, calls := [], snackbars := [], logs := [] }
  | .ok (some user) =>
      if truthyId user.uid then
        let userId := user.uid.getD ""
        match documentId with
        | some did =>
            match env.saveResult with
            | .error _ =>
                { documentId := some did,
                  calls := [StorageCall.save did userId categories],
                  snackbars := [],
                  logs := ["Error saving categories:"] }
            | .ok _ =>
                { documentId := some did,
                  calls := [StorageCall.save did userId categories],
                  snackbars := ["Preferences updated successfully"],
                  logs := [] }
        | none =>
            match env.createResult with
            | .error _ =>
                { documentId := none,
                  calls := [StorageCall.create userId categories],
                  snackbars := [],
                  logs := ["Error saving categories:"] }
            | .ok (some resp) =>
                if truthyId resp.docId then
                  { documentId := resp.docId,
                    calls := [StorageCall.create userId categories],
                    snackbars := ["Preferences updated successfully"],
                    logs := [] }
                else
                  { documentId := none,
                    calls := [StorageCall.create userId categories],
                    snackbars := ["Preferences updated successfully"],
                    logs := ["Error: response from createpreferences is undefined"] }
            | .ok none =>
                { documentId := none,
                  calls := [StorageCall.create userId categories],
                  snackbars := ["Preferences updated successfully"],
                  logs := ["Error: response from createpreferences is undefined"] }
      else
        { documentId := documentId, calls := [], snackbars := [], logs := [] }

/-- The functional state update inside `toggleCategory` (browse.tsx lines
57–66): remove the category when present, append it otherwise. -/
def toggleCategory (category : String) (prev : List String) : List String :=
  if prev.contains category then prev.filter (fun c => c ≠ category)
  else prev ++ [category]

/-- One user toggle of a category, as wired in the source: the selected set
is updated through the functional updater `setSelectedCategories(prev => ...)`
and is therefore threaded correctly, and the updated list is handed to
exactly one invocation of `saveCategoriesToDatabase`.  That invocation,
however, is the first-render closure: `toggleCategory` is memoized with
`useCallback(..., [])` (browse.tsx lines 57-66), so the `documentId` the save
flow reads is the first-render value `null` — never the current state.  A
`setDocumentId` event still updates the React state: since the captured
input is `none`, the outcome's `documentId` is `some` exactly when the
create branch cached a returned id, and otherwise the state keeps its
previous value. -/
def toggleStep (env : SaveEnv) (category : String) (s : BrowseState) :
    BrowseState × SaveOutcome :=
  let updated := toggleCategory category s.selectedCategories
  let out := saveCategoriesToDatabase none env updated
  (⟨updated,
    match out.documentId with
    | some d => some d
    | none => s.documentId⟩, out)

/-- A sequence of toggles, each with its own collaborator responses; returns
the final state and the per-toggle outcomes in order.  Every step's save flow
reads the stale first-render `documentId` (`null`); only the React state —
which the toggle path never reads — accumulates the cached ids. -/
def runToggles (steps : List (String × SaveEnv)) (s : BrowseState) :
    BrowseState × List SaveOutcome :=
  match steps with
  | [] => (s, [])
  | (c, env) :: rest =>
      let p := toggleStep env c s
      let q := runToggles rest p.1
      (q.1, p.2 :: q.2)

/-- The collaborator responses one invocation of `loadSavedCategories` can
consume: the resolutions of `getCurrentUser` and of `getpreferences`. -/
structure LoadEnv where
  currentUser : Except Unit (Option AppwriteUser)
  getpreferences : Except Unit (Option PrefDoc)
deriving Repr

/-- Result of `loadSavedCategories`: the Browse state after the flow and the
`console.log` lines it emitted. -/
structure LoadOutcome where
  state : BrowseState
  logs : List String
deriving Repr, DecidableEq

/-- `loadSavedCategories` of `src/app/screens/browse.tsx` (lines 106–127):
`await getCurrentUser()`; `if (user && user.$id)` then `await getpreferences`;
a truthy response sets `selectedCategories` to its `interested_categories`
and `documentId` to its `$id`, a falsy response resets both to `[]` / `null`;
any rejection jumps to the `catch`, which only logs ("Error fetching saved
categories:") and leaves the state as it was. -/
def loadSavedCategories (s : BrowseState) (env : LoadEnv) : LoadOutcome :=
  match env.currentUser with
  | .error _ => ⟨s, ["Error fetching saved categories:"]⟩
  | .ok none => ⟨s, []⟩
  | .ok (some user) =>
      if truthyId user.uid then
        match env.getpreferences with
        | .error _ => ⟨s, ["Error fetching saved categories:"]⟩
        | .ok (some resp) => ⟨⟨resp.interested_categories, resp.docId⟩, []⟩
        | .ok none => ⟨⟨[], none⟩, []⟩
      else ⟨s, []⟩

/-- Modelled from the spec: the `AppwriteContext` provider
(`src/app/appwrite/appwritecontext`, not present under `src/`) supplies the
initial `isLoggedIn` value that `App` reads.  The spec fixes the startup
behavior — "two entry routes (Home, Login) selected once at startup based on
auth state" and "when it rejects or resolves empty, it renders the login entry
route" — which determines this initial value to be `false`. -/
def initialIsLoggedIn : Bool := false

/-- The `isLoggedIn` value after `App`'s `getCurrentUser` effect
(`src/unnamed/part_000` lines 30–43): a truthy resolution sets it `true`, a
rejection sets it `false`, and a falsy resolution leaves it unchanged. -/
def appResolveIsLoggedIn (userResult : Except Unit (Option AppwriteUser))
    (prev : Bool) : Bool :=
  match userResult with
  | .ok (some _) => true
  | .ok none => prev
  | .error _ => false

/-- The entry route `App` renders once loading finishes
(`src/unnamed/part_000` lines 51–55): `isLoggedIn ? 'Home' : 'Login'`. -/
def appInitialRoute (userResult : Except Unit (Option AppwriteUser)) : String :=
  if appResolveIsLoggedIn userResult initialIsLoggedIn then "Home" else "Login"

/-- The body of the Browse screen's `fetchNewsData` loop (browse.tsx lines
163–169): for each selected category in order, `await
getCategoryNewsFromAPI([category])`; when the response and its entry for the
category are truthy, store the first 20 articles (`slice(0, 20)`).  The `api`
environment maps a category to the resolution of that call, with the entry
lookup folded in (`none` = response falsy or no entry for the category).
A rejection aborts the loop.  Returns the built mapping (or the rejection)
together with the list of categories actually fetched. -/
def fetchNewsData (selected : List String)
    (api : String → Except Unit (Option (List NewsArticle))) :
    Except Unit (List (String × List NewsArticle)) × List String :=
  match selected with
  | [] => (.ok [], [])
  | c :: rest =>
      match api c with
      | .error e => (.error e, [c])
      | .ok respOpt =>
          match fetchNewsData rest api with
          | (.error e, fetched) => (.error e, c :: fetched)
          | (.ok restData, fetched) =>
              match respOpt with
              | some arts => (.ok ((c, arts.take 20) :: restData), c :: fetched)
              | none => (.ok restData, c :: fetched)

/-- The Browse screen's news `useEffect` (browse.tsx lines 156–182): the fetch
runs only when `selectedCategories.length > 0`; on success `newsData` is
replaced by the built mapping, on rejection the `catch` sets an error and the
previous `newsData` is left in state.  Returns the new `newsData`, the
categories fetched, and whether the error branch was taken. -/
def newsEffect (selected : List String)
    (prevNews : List (String × List NewsArticle))
    (api : String → Except Unit (Option (List NewsArticle))) :
    List (String × List NewsArticle) × List String × Bool :=
  if selected.length > 0 then
    match fetchNewsData selected api with
    | (.ok d, fetched) => (d, fetched, false)
    | (.error _, fetched) => (prevNews, fetched, true)
  else (prevNews, [], false)

/-- The four mutually exclusive branches of the Browse screen's news section
(browse.tsx lines 218–257). -/
inductive NewsView where
  | loadingView
  | selectPrompt
  | noNewsFound
  | articles (data : List (String × List NewsArticle))
deriving Repr, DecidableEq

/-- The render branch of the Browse news section (browse.tsx lines 218–257):
a spinner while loading, the "Select categories to see news" prompt when no
category is selected, the "No news found" message when `newsData` has no
keys, and otherwise the article lists. -/
def renderNewsSection (isLoading : Bool) (selected : List String)
    (newsData : List (String × List NewsArticle)) : NewsView :=
  if isLoading then .loadingView
  else if selected.length == 0 then .selectPrompt
  else if newsData.length == 0 then .noNewsFound
  else .articles newsData

/-- `Trending.fetchNewsData` of `src/unnamed/part_000` (lines 102–118): a
single `getTrendingNewsFromAPI()` call; a truthy response has each of its
entries stored with the first 20 articles (`slice(0, 20)`), a falsy response
leaves the mapping empty; a rejection is the `.error` case (caught by the
screen, which only logs). -/
def trendingFetchNewsData
    (resp : Except Unit (Option (List (String × List NewsArticle)))) :
    Except Unit (List (String × List NewsArticle)) :=
  match resp with
  | .error e => .error e
  | .ok none => .ok []
  | .ok (some entries) => .ok (entries.map (fun p => (p.1, p.2.take 20)))

/-- The Trending screen's news effect including its `catch` (part_000 lines
102–120): on success `newsData` is replaced, on rejection the previous
`newsData` is left in state and "Failed to fetch news:" is logged. -/
def trendingEffect (prevNews : List (String × List NewsArticle))
    (resp : Except Unit (Option (List (String × List NewsArticle)))) :
    List (String × List NewsArticle) × List String :=
  match trendingFetchNewsData resp with
  | .ok d => (d, [])
  | .error _ => (prevNews, ["Failed to fetch news:"])

/-! ## Helper lemmas -/

/-- With a logged-in user (truthy `$id`), every invocation of
`saveCategoriesToDatabase` issues exactly one storage call, whatever the
cached `documentId` and the create/save resolutions are. -/
lemma save_calls_length (dId : Option String) (env : SaveEnv)
    (cats : List String) (u : AppwriteUser)
    (hu : env.currentUser = .ok (some u)) (ht : truthyId u.uid = true) :
    (saveCategoriesToDatabase dId env cats).calls.length = 1 := by
  rcases env with ⟨cu, sr, cr⟩
  cases hu
  rcases dId with _ | d
  · rcases cr with e | r
    · simp [saveCategoriesToDatabase, ht]
    · rcases r with _ | resp
      · simp [saveCategoriesToDatabase, ht]
      · by_cases hd : truthyId resp.docId <;>
          simp [saveCategoriesToDatabase, ht, hd]
  · rcases sr with e | v <;> simp [saveCategoriesToDatabase, ht]

/-- Toggling a selected category removes it from the selected set. -/
lemma toggle_not_mem (c : String) (prev : List String) (h : c ∈ prev) :
    c ∉ toggleCategory c prev := by
  simp [toggleCategory, h]

/-- Toggling an unselected category appends it to the selected set. -/
lemma toggle_append (c : String) (prev : List String) (h : c ∉ prev) :
    toggleCategory c prev = prev ++ [c] := by
  simp [toggleCategory, h]

/-- A toggle leaves the membership of every other category unchanged. -/
lemma toggle_mem_iff (x c : String) (prev : List String) (hx : x ≠ c) :
    x ∈ toggleCategory c prev ↔ x ∈ prev := by
  by_cases h : c ∈ prev <;> simp [toggleCategory, h, hx]

/-- A toggle always changes the selected set. -/
lemma toggle_ne (c : String) (prev : List String) :
    toggleCategory c prev ≠ prev := by
  by_cases h : c ∈ prev
  · intro heq
    exact toggle_not_mem c prev h (heq.symm ▸ h)
  · intro heq
    rw [toggle_append c prev h] at heq
    have := congrArg List.length heq
    simp at this

/-- Unfolding lemma: the outcome of a toggle is the save flow applied to the
updated category list with the stale captured `documentId = null`. -/
lemma toggleStep_snd (env : SaveEnv) (c : String) (s : BrowseState) :
    (toggleStep env c s).2 =
      saveCategoriesToDatabase none env
        (toggleCategory c s.selectedCategories) := rfl

/-- Unfolding lemma: the state after a toggle. -/
lemma toggleStep_fst (env : SaveEnv) (c : String) (s : BrowseState) :
    (toggleStep env c s).1 =
      ⟨toggleCategory c s.selectedCategories,
       match (saveCategoriesToDatabase none env
          (toggleCategory c s.selectedCategories)).documentId with
       | some d => some d
       | none => s.documentId⟩ := rfl

/-! ## Claim theorems -/

/-- Concrete user used by the concrete traces and witnesses:
`getCurrentUser` resolves with a user whose `$id` is `"user1"`. -/
def userU1 : AppwriteUser := ⟨some "user1"⟩

/-- Concrete document returned by `createpreferences` in the concrete
traces. -/
def docD1 : PrefDoc := ⟨some "doc1", []⟩

/-- Collaborator responses in which every call succeeds and the create call
returns `docD1`. -/
def envCreateOk : SaveEnv := ⟨.ok (some userU1), .ok (), .ok (some docD1)⟩

/-- **C1 (code bug).** The claimed invariant — after the first successful
create call returns a document, the cached id is used so that no later
toggle issues a second `createpreferences` call — is defeated in the source
by the stale-closure wiring: `toggleCategory` is memoized with
`useCallback(..., [])`, so every toggle runs the first-render save flow,
whose captured `documentId` is `null`.  Evaluated at the failing input (two
toggles by a logged-in user, each create resolving with a document): the
first toggle creates and its id `doc1` is cached in the state, yet the
second toggle issues a second `createpreferences` call. -/
theorem claim_C1_second_create_issued :
    (runToggles
        [("Social Events", envCreateOk), ("Political Events", envCreateOk)]
        initialBrowseState).2.map (fun o => o.calls) =
      [[StorageCall.create "user1" ["Social Events"]],
       [StorageCall.create "user1" ["Social Events", "Political Events"]]] ∧
    (toggleStep envCreateOk "Social Events" initialBrowseState).1.documentId =
      some "doc1" := by
  decide

/-- **C2 (code bug).** The claim says subsequent toggles issue
`savepreferences` calls reusing the id returned by the first create; in the
source the save branch is unreachable from the toggle path — the stale
first-render closure always reads `documentId = null` — so subsequent
toggles issue `createpreferences` again.  Evaluated at the failing input:
every call of both toggles of the trace is a create, and even a toggle taken
from the state in which `doc1` is already cached issues a create, not a save
carrying `doc1`. -/
theorem claim_C2_save_branch_unreachable :
    (∀ o ∈ (runToggles
        [("Social Events", envCreateOk), ("Political Events", envCreateOk)]
        initialBrowseState).2, ∀ k ∈ o.calls, k.isCreate = true) ∧
    (toggleStep envCreateOk "Political Events"
        ⟨["Social Events"], some "doc1"⟩).2.calls =
      [StorageCall.create "user1" ["Social Events", "Political Events"]] := by
  decide

/-- **C3.** For every category and every current selected set, a toggle
removes the category from the selected set when it is a member and appends it
otherwise (leaving every other category's membership unchanged), and — with a
logged-in user — each toggle hands the updated list to exactly one storage
call (one create or one save). -/
theorem claim_C3_toggle_updates_and_persists_once
    (s : BrowseState) (c : String) (env : SaveEnv) (u : AppwriteUser)
    (h1 : env.currentUser = .ok (some u)) (h2 : truthyId u.uid = true) :
    (c ∈ s.selectedCategories →
      c ∉ (toggleStep env c s).1.selectedCategories) ∧
    (c ∉ s.selectedCategories →
      (toggleStep env c s).1.selectedCategories =
        s.selectedCategories ++ [c]) ∧
    (∀ x, x ≠ c →
      (x ∈ (toggleStep env c s).1.selectedCategories ↔
        x ∈ s.selectedCategories)) ∧
    (toggleStep env c s).2.calls.length = 1 := by
  refine ⟨?_, ?_, ?_, ?_⟩
  · intro h; rw [toggleStep_fst]; exact toggle_not_mem c _ h
  · intro h; rw [toggleStep_fst]; exact toggle_append c _ h
  · intro x hx; rw [toggleStep_fst]; exact toggle_mem_iff x c _ hx
  · rw [toggleStep_snd]; exact save_calls_length _ env _ u h1 h2

/-- Witness for C3 at a concrete toggle. -/
theorem claim_C3_witness :
    ("Social Events" ∈ initialBrowseState.selectedCategories →
      "Social Events" ∉
        (toggleStep envCreateOk "Social Events"
          initialBrowseState).1.selectedCategories) ∧
    ("Social Events" ∉ initialBrowseState.selectedCategories →
      (toggleStep envCreateOk "Social Events"
          initialBrowseState).1.selectedCategories =
        initialBrowseState.selectedCategories ++ ["Social Events"]) ∧
    (∀ x, x ≠ "Social Events" →
      (x ∈ (toggleStep envCreateOk "Social Events"
          initialBrowseState).1.selectedCategories ↔
        x ∈ initialBrowseState.selectedCategories)) ∧
    (toggleStep envCreateOk "Social Events" initialBrowseState).2.calls.length =
      1 :=
  claim_C3_toggle_updates_and_persists_once initialBrowseState "Social Events"
    envCreateOk userU1 rfl (by decide)

/-- **C4.** At startup, a `getCurrentUser` resolution with a user renders the
authenticated entry route "Home"; a rejection or a resolution with an absent
user renders the login entry route "Login". -/
theorem claim_C4_startup_route (u : AppwriteUser) :
    appInitialRoute (.ok (some u)) = "Home" ∧
    appInitialRoute (.error ()) = "Login" ∧
    appInitialRoute (.ok none) = "Login" :=
  ⟨rfl, rfl, rfl⟩

/-- Every entry the Browse fetch loop stores comes from a successful API
resolution for its category, truncated by `slice(0, 20)`. -/
lemma fetchNewsData_entries
    (api : String → Except Unit (Option (List NewsArticle))) :
    ∀ (selected : List String) (data : List (String × List NewsArticle)),
      (fetchNewsData selected api).1 = .ok data →
      ∀ q ∈ data, ∃ arts, api q.1 = .ok (some arts) ∧ q.2 = arts.take 20 := by
  intro selected
  induction selected with
  | nil =>
      intro data h q hq
      simp [fetchNewsData] at h
      subst h
      simp at hq
  | cons c rest ih =>
      intro data h q hq
      simp only [fetchNewsData] at h
      cases hac : api c with
      | error e => rw [hac] at h; simp at h
      | ok respOpt =>
          rw [hac] at h
          rcases hr : fetchNewsData rest api with ⟨r, fetched⟩
          rw [hr] at h
          cases r with
          | error e => simp at h
          | ok restData =>
              have hrest : (fetchNewsData rest api).1 = .ok restData := by
                rw [hr]
              cases respOpt with
              | some arts =>
                  simp at h
                  subst h
                  rcases List.mem_cons.mp hq with h1 | h2
                  · subst h1
                    exact ⟨arts, hac, rfl⟩
                  · exact ih restData hrest q h2
              | none =>
                  simp at h
                  subst h
                  exact ih restData hrest q hq

/-- **C5.** Every category entry the Browse screen stores holds at most the
first 20 articles of the collaborator's response for that category, in source
order (a prefix of the response); likewise for every entry the Trending
screen stores from the trending response. -/
theorem claim_C5_at_most_20
    (selected : List String)
    (api : String → Except Unit (Option (List NewsArticle)))
    (data : List (String × List NewsArticle))
    (hdata : (fetchNewsData selected api).1 = .ok data)
    (entries tdata : List (String × List NewsArticle))
    (htdata : trendingFetchNewsData (.ok (some entries)) = .ok tdata) :
    (∀ q ∈ data, ∃ arts, api q.1 = .ok (some arts) ∧
      q.2 = arts.take 20 ∧ q.2.length ≤ 20 ∧ arts = q.2 ++ arts.drop 20) ∧
    (∀ q ∈ tdata, ∃ p ∈ entries, q.1 = p.1 ∧ q.2 = p.2.take 20 ∧
      q.2.length ≤ 20 ∧ p.2 = q.2 ++ p.2.drop 20) := by
  constructor
  · intro q hq
    obtain ⟨arts, hav, htake⟩ := fetchNewsData_entries api selected data hdata q hq
    refine ⟨arts, hav, htake, ?_, ?_⟩
    · rw [htake]; exact List.length_take_le 20 arts
    · rw [htake]; exact (List.take_append_drop 20 arts).symm
  · intro q hq
    have ht : tdata = entries.map (fun p => (p.1, p.2.take 20)) := by
      simpa [trendingFetchNewsData] using htdata.symm
    rw [ht] at hq
    obtain ⟨p, hp, hpq⟩ := List.mem_map.mp hq
    refine ⟨p, hp, ?_, ?_, ?_, ?_⟩
    · rw [← hpq]
    · rw [← hpq]
    · rw [← hpq]; exact List.length_take_le 20 p.2
    · rw [← hpq]; exact (List.take_append_drop 20 p.2).symm

/-- Concrete article used by the C5 witness. -/
def artA : NewsArticle := ⟨"https://example.com/a"⟩

/-- Concrete news API used by the C5 witness: one category resolves with one
article, the rest resolve empty. -/
def apiW : String → Except Unit (Option (List NewsArticle)) :=
  fun c => if c = "Corporate/Industry Events" then .ok (some [artA]) else .ok none

/-- Witness for C5 at a concrete fetch. -/
theorem claim_C5_witness :
    (∀ q ∈ [("Corporate/Industry Events", [artA])], ∃ arts,
      apiW q.1 = .ok (some arts) ∧ q.2 = arts.take 20 ∧
      q.2.length ≤ 20 ∧ arts = q.2 ++ arts.drop 20) ∧
    (∀ q ∈ [("Ideas Festivals", [artA])], ∃ p ∈ [("Ideas Festivals", [artA])],
      q.1 = p.1 ∧ q.2 = p.2.take 20 ∧
      q.2.length ≤ 20 ∧ p.2 = q.2 ++ p.2.drop 20) :=
  claim_C5_at_most_20 ["Corporate/Industry Events"] apiW
    [("Corporate/Industry Events", [artA])] rfl
    [("Ideas Festivals", [artA])] [("Ideas Festivals", [artA])] rfl

/-- **C6.** Every rejected collaborator promise in the sourced flows is
handled locally: the embedded flow still returns a value (the `catch`
swallows the rejection, so nothing propagates beyond the screen), the
rejection is logged to the diagnostic stream, no storage call or snackbar is
produced, and the state components the flow writes are left as they were —
so from the screens' initial/default state the UI stays at the empty/default
value (no user, empty news list, empty preferences). -/
theorem claim_C6_rejections_absorbed
    (dId : Option String) (cats : List String) (sr : Except Unit Unit)
    (cr gp : Except Unit (Option PrefDoc)) (s : BrowseState)
    (uid : String) (huid : uid ≠ "")
    (prevNews : List (String × List NewsArticle)) (b : Bool) :
    saveCategoriesToDatabase dId ⟨.error (), sr, cr⟩ cats =
      ⟨dId, [], [], ["Error saving categories:"]⟩ ∧
    saveCategoriesToDatabase none ⟨.ok (some ⟨some uid⟩), sr, .error ()⟩ cats =
      ⟨none, [StorageCall.create uid cats], [],
       ["Error saving categories:"]⟩ ∧
    loadSavedCategories s ⟨.error (), gp⟩ =
      ⟨s, ["Error fetching saved categories:"]⟩ ∧
    loadSavedCategories initialBrowseState
        ⟨.ok (some ⟨some uid⟩), .error ()⟩ =
      ⟨initialBrowseState, ["Error fetching saved categories:"]⟩ ∧
    trendingEffect prevNews (.error ()) =
      (prevNews, ["Failed to fetch news:"]) ∧
    appResolveIsLoggedIn (.error ()) b = false := by
  have ht : truthyId (some uid) = true := by simpa [truthyId] using huid
  refine ⟨rfl, ?_, rfl, ?_, rfl, rfl⟩
  · simp [saveCategoriesToDatabase, ht]
  · simp [loadSavedCategories, ht]

/-- Witness for C6 at concrete rejections. -/
theorem claim_C6_witness :
    saveCategoriesToDatabase none ⟨.error (), .ok (), .ok none⟩
        ["Social Events"] =
      ⟨none, [], [], ["Error saving categories:"]⟩ ∧
    saveCategoriesToDatabase none
        ⟨.ok (some ⟨some "user1"⟩), .ok (), .error ()⟩ ["Social Events"] =
      ⟨none, [StorageCall.create "user1" ["Social Events"]], [],
       ["Error saving categories:"]⟩ ∧
    loadSavedCategories initialBrowseState ⟨.error (), .ok none⟩ =
      ⟨initialBrowseState, ["Error fetching saved categories:"]⟩ ∧
    loadSavedCategories initialBrowseState
        ⟨.ok (some ⟨some "user1"⟩), .error ()⟩ =
      ⟨initialBrowseState, ["Error fetching saved categories:"]⟩ ∧
    trendingEffect [] (.error ()) = ([], ["Failed to fetch news:"]) ∧
    appResolveIsLoggedIn (.error ()) false = false :=
  claim_C6_rejections_absorbed none ["Social Events"] (.ok ()) (.ok none)
    (.ok none) initialBrowseState "user1" (by decide) [] false

/-- **C7 (counterexample).** With preferences already loaded (non-default
state, as after a pull-to-refresh), a rejection of `getpreferences` is NOT
observationally the same as a resolution with no document: the rejection
preserves the loaded state while the empty resolution clears it. -/
theorem claim_C7_counterexample :
    (loadSavedCategories ⟨["Social Events"], some "doc1"⟩
        ⟨.ok (some ⟨some "user1"⟩), .error ()⟩).state ≠
    (loadSavedCategories ⟨["Social Events"], some "doc1"⟩
        ⟨.ok (some ⟨some "user1"⟩), .ok none⟩).state := by
  decide

/-- **C7 (amended).** A rejection of `getCurrentUser` is collapsed into the
same observable outcome as a resolution with no user (startup route, load
flow state, save flow storage calls / snackbars / cached id); and from the
initial empty state — the on-mount load — a rejection of `getpreferences` is
collapsed into the same observable outcome as a resolution with no document.
Once preferences are loaded, however, a `getpreferences` rejection preserves
them while an empty resolution clears them. -/
theorem claim_C7_collapse
    (gp : Except Unit (Option PrefDoc)) (sr : Except Unit Unit)
    (cr : Except Unit (Option PrefDoc)) (cats : List String)
    (dId : Option String) (s : BrowseState) (u : AppwriteUser) :
    appInitialRoute (.error ()) = appInitialRoute (.ok none) ∧
    (loadSavedCategories s ⟨.error (), gp⟩).state =
      (loadSavedCategories s ⟨.ok none, gp⟩).state ∧
    (saveCategoriesToDatabase dId ⟨.error (), sr, cr⟩ cats).documentId =
      (saveCategoriesToDatabase dId ⟨.ok none, sr, cr⟩ cats).documentId ∧
    (saveCategoriesToDatabase dId ⟨.error (), sr, cr⟩ cats).calls =
      (saveCategoriesToDatabase dId ⟨.ok none, sr, cr⟩ cats).calls ∧
    (saveCategoriesToDatabase dId ⟨.error (), sr, cr⟩ cats).snackbars =
      (saveCategoriesToDatabase dId ⟨.ok none, sr, cr⟩ cats).snackbars ∧
    (loadSavedCategories initialBrowseState
        ⟨.ok (some u), .error ()⟩).state =
      (loadSavedCategories initialBrowseState
        ⟨.ok (some u), .ok none⟩).state := by
  refine ⟨rfl, rfl, rfl, rfl, rfl, ?_⟩
  by_cases h : truthyId u.uid <;> simp [loadSavedCategories, h, initialBrowseState]

/-- **C8.** Deselecting the last category leaves the news state alone: with an
empty selected set the news effect issues no fetch and keeps the previous
`newsData` untouched, and the render switches to the "Select categories" empty
state, which hides — without clearing — the previously fetched articles (with
a non-empty selection the same non-empty `newsData` would render as article
lists). -/
theorem claim_C8_empty_selection_frame
    (c : String) (prevNews : List (String × List NewsArticle))
    (api : String → Except Unit (Option (List NewsArticle)))
    (q : String × List NewsArticle) (qs : List (String × List NewsArticle)) :
    toggleCategory c [c] = [] ∧
    newsEffect [] prevNews api = (prevNews, [], false) ∧
    renderNewsSection false [] prevNews = .selectPrompt ∧
    renderNewsSection false [c] (q :: qs) = .articles (q :: qs) := by
  refine ⟨?_, rfl, rfl, rfl⟩
  simp [toggleCategory]

/-- **C9.** When `getCurrentUser` resolves without a usable user (no user, a
user without `$id`, or an empty `$id`) during a save, no storage call is made
and no snackbar is shown, and the cached `documentId` is untouched — yet the
locally selected set has already been changed by the toggle, so local and
remote state silently diverge. -/
theorem claim_C9_silent_divergence
    (c : String) (s : BrowseState) (sr : Except Unit Unit)
    (cr : Except Unit (Option PrefDoc)) :
    (toggleStep ⟨.ok none, sr, cr⟩ c s).2.calls = [] ∧
    (toggleStep ⟨.ok none, sr, cr⟩ c s).2.snackbars = [] ∧
    (toggleStep ⟨.ok (some ⟨none⟩), sr, cr⟩ c s).2.calls = [] ∧
    (toggleStep ⟨.ok (some ⟨none⟩), sr, cr⟩ c s).2.snackbars = [] ∧
    (toggleStep ⟨.ok (some ⟨some ""⟩), sr, cr⟩ c s).2.calls = [] ∧
    (toggleStep ⟨.ok (some ⟨some ""⟩), sr, cr⟩ c s).2.snackbars = [] ∧
    (toggleStep ⟨.ok none, sr, cr⟩ c s).1.selectedCategories =
      toggleCategory c s.selectedCategories ∧
    (toggleStep ⟨.ok none, sr, cr⟩ c s).1.documentId = s.documentId ∧
    toggleCategory c s.selectedCategories ≠ s.selectedCategories := by
  refine ⟨rfl, rfl, ?_, ?_, ?_, ?_, rfl, rfl, toggle_ne c _⟩ <;>
    simp [toggleStep, saveCategoriesToDatabase, truthyId]

/-- **C10.** In the create branch, the success snackbar "Preferences updated
successfully" is shown even when `createpreferences` resolves with an
undefined or id-less response; in those cases no document id is cached and
only a console log records the anomaly. -/
theorem claim_C10_snackbar_on_idless_create
    (uid : String) (huid : uid ≠ "") (cats ics : List String)
    (sr : Except Unit Unit) :
    saveCategoriesToDatabase none ⟨.ok (some ⟨some uid⟩), sr, .ok none⟩ cats =
      ⟨none, [StorageCall.create uid cats],
       ["Preferences updated successfully"],
       ["Error: response from createpreferences is undefined"]⟩ ∧
    saveCategoriesToDatabase none
        ⟨.ok (some ⟨some uid⟩), sr, .ok (some ⟨none, ics⟩)⟩ cats =
      ⟨none, [StorageCall.create uid cats],
       ["Preferences updated successfully"],
       ["Error: response from createpreferences is undefined"]⟩ ∧
    saveCategoriesToDatabase none
        ⟨.ok (some ⟨some uid⟩), sr, .ok (some ⟨some "", ics⟩)⟩ cats =
      ⟨none, [StorageCall.create uid cats],
       ["Preferences updated successfully"],
       ["Error: response from createpreferences is undefined"]⟩ := by
  have ht : truthyId (some uid) = true := by simpa [truthyId] using huid
  refine ⟨?_, ?_, ?_⟩ <;> simp [saveCategoriesToDatabase, ht, truthyId, huid]

/-- Witness for C10 at a concrete id-less create. -/
theorem claim_C10_witness :
    saveCategoriesToDatabase none
        ⟨.ok (some ⟨some "user1"⟩), .ok (), .ok none⟩ ["Social Events"] =
      ⟨none, [StorageCall.create "user1" ["Social Events"]],
       ["Preferences updated successfully"],
       ["Error: response from createpreferences is undefined"]⟩ ∧
    saveCategoriesToDatabase none
        ⟨.ok (some ⟨some "user1"⟩), .ok (), .ok (some ⟨none, []⟩)⟩
        ["Social Events"] =
      ⟨none, [StorageCall.create "user1" ["Social Events"]],
       ["Preferences updated successfully"],
       ["Error: response from createpreferences is undefined"]⟩ ∧
    saveCategoriesToDatabase none
        ⟨.ok (some ⟨some "user1"⟩), .ok (), .ok (some ⟨some "", []⟩)⟩
        ["Social Events"] =
      ⟨none, [StorageCall.create "user1" ["Social Events"]],
       ["Preferences updated successfully"],
       ["Error: response from createpreferences is undefined"]⟩ :=
  claim_C10_snackbar_on_idless_create "user1" (by decide) ["Social Events"]
    [] (.ok ())
